import Mathlib

/-!
Verification model of the coastal-threat-system repository
(`backend/services/unified_data_service.py`, `real_weather_service.py`,
`real_tide_service.py`, `real_marine_service.py`, `simple_alert_service.py`).

Python strings are modelled as Lean `String`; Python floats as `ℚ` (exact
rational arithmetic; the claims under study concern bands, bounds and
branch selection, which are unaffected by binary rounding), except for the
tide simulation, whose `math.sin` forces `ℝ`.  Python dictionaries built by
the aggregation layer are modelled as insertion-ordered association lists,
so that the `'source' in dict` membership test of
`get_comprehensive_data` can be translated literally.  Every random draw
(`random.uniform`, `random.randint`, `random.choice`) is an explicit input
of the function that performs it, and `datetime.utcnow()` is an explicit
abstract timestamp / hour-of-day input.
-/

namespace Coastal

/-- Python `str.lower()` (charwise, ASCII suffices for the catalog). -/
def pyLower (s : String) : String := ⟨s.data.map Char.toLower⟩

/-- Python `str.replace(a, b)` for one-character patterns (charwise). -/
def pyReplaceChar (s : String) (a b : Char) : String :=
  ⟨s.data.map (fun c => if c = a then b else c)⟩

/-- `needle` occurs as a contiguous substring of `hay` (Python `in`). -/
def listSubseg (needle hay : List Char) : Bool :=
  match hay with
  | [] => needle.isEmpty
  | _ :: t => needle.isPrefixOf hay || listSubseg needle t

/-- Python `needle in hay` on strings. -/
def strIn (needle hay : String) : Bool := listSubseg needle.data hay.data

/-- Python `str.title()`: uppercase each letter that does not follow a
letter, lowercase every other letter. -/
def pyTitleGo : Bool → List Char → List Char
  | _, [] => []
  | prevAlpha, c :: t =>
      (if c.isAlpha then (if prevAlpha then c.toLower else c.toUpper) else c)
        :: pyTitleGo c.isAlpha t

/-- Python `str.title()`. -/
def pyTitle (s : String) : String := ⟨pyTitleGo false s.data⟩

/-- Value of one hexadecimal digit (MD5 digests only contain valid digits;
other characters are given value 0 to keep the model total). -/
def hexDigitVal (c : Char) : ℕ :=
  if '0' ≤ c ∧ c ≤ '9' then c.toNat - '0'.toNat
  else if 'a' ≤ c ∧ c ≤ 'f' then c.toNat - 'a'.toNat + 10
  else if 'A' ≤ c ∧ c ≤ 'F' then c.toNat - 'A'.toNat + 10
  else 0

/-- Python `int(s, 16)` on a string of hex digits. -/
def hexToNat (s : String) : ℕ :=
  s.data.foldl (fun acc c => 16 * acc + hexDigitVal c) 0

/-- Python `int(q)` on a float: truncation toward zero. -/
def pyIntTrunc (q : ℚ) : ℤ := if 0 ≤ q then ⌊q⌋ else -⌊-q⌋

/-- Python `round(x, n)` modelled over `ℚ` (round-to-nearest; ties, which
do not arise at the values the claims inspect, are taken upward). -/
def pyRound (n : ℕ) (q : ℚ) : ℚ := (⌊q * 10 ^ n + 1 / 2⌋ : ℚ) / 10 ^ n

/-- Render a natural number in decimal. -/
def natDecimal (n : ℕ) : String := toString n

/-- Render a rational whose denominator divides a power of ten the way
Python prints the corresponding float literal (at least one digit after the
decimal point); used only to build the `name` / `coordinates` strings,
which no claim inspects numerically. -/
def ratDecimalAux (q : ℚ) (digits : ℕ) : String :=
  let sign := if q < 0 then "-" else ""
  let a : ℚ := |q|
  let scaled : ℤ := ⌊a * 10 ^ digits + 1 / 2⌋
  let ip : ℕ := (scaled / 10 ^ digits).toNat
  let fp : ℕ := (scaled % 10 ^ digits).toNat
  let fpStr := natDecimal fp
  let pad := String.mk (List.replicate (digits - fpStr.length) '0')
  sign ++ natDecimal ip ++ "." ++ pad ++ fpStr

/-- Smallest number of decimal digits (at least one) needed to write `q`
exactly, capped at 17 as a float would be. -/
def ratDecimalDigits (q : ℚ) : ℕ :=
  ((List.range 17).find? (fun k => (q * 10 ^ (k + 1)).den == 1)).getD 16 + 1

/-- Python `str(x)` / `f"{x}"` on the float `x`. -/
def pyFloatStr (q : ℚ) : String := ratDecimalAux q (ratDecimalDigits q)

/-- Python `f"{x:.4f}"`. -/
def pyFormat4 (q : ℚ) : String := ratDecimalAux q 4

/-- Decimal digits as a list of values, `none` if a non-digit occurs. -/
def digitsVal : List Char → Option (List ℕ)
  | [] => some []
  | c :: t =>
      if '0' ≤ c ∧ c ≤ '9' then
        (digitsVal t).map (fun r => (c.toNat - '0'.toNat) :: r)
      else none

/-- Natural number denoted by a digit list. -/
def digitsToNat (l : List ℕ) : ℕ := l.foldl (fun acc d => 10 * acc + d) 0

/-- Parse an optional sign, returning the sign and the rest. -/
def splitSign : List Char → (Bool × List Char)
  | '+' :: t => (false, t)
  | '-' :: t => (true, t)
  | l => (false, l)

/-- Parse an unsigned decimal mantissa `ddd`, `ddd.ddd`, `.ddd` or `ddd.`. -/
def parseMantissa (l : List Char) : Option ℚ :=
  match l.splitOn '.' with
  | [ip] => (digitsVal ip).bind (fun d =>
      if d.isEmpty then none else some ((digitsToNat d : ℚ)))
  | [ip, fp] => (digitsVal ip).bind (fun di =>
      (digitsVal fp).bind (fun df =>
        if di.isEmpty ∧ df.isEmpty then none
        else some ((digitsToNat di : ℚ) +
          (digitsToNat df : ℚ) / 10 ^ df.length)))
  | _ => none

/-- Parse an exponent part `ddd` with optional sign. -/
def parseExponent (l : List Char) : Option ℤ :=
  let (neg, rest) := splitSign l
  (digitsVal rest).bind (fun d =>
    if d.isEmpty then none
    else some (if neg then -(digitsToNat d : ℤ) else (digitsToNat d : ℤ)))

/-- Python `float(s)` for finite decimal literals (optionally signed
mantissa with optional exponent, surrounded by optional whitespace);
returns `none` where Python raises `ValueError`. -/
def pyFloat (s : String) : Option ℚ :=
  let core := (s.data.dropWhile (fun c => c.isWhitespace)).reverse.dropWhile
      (fun c => c.isWhitespace) |>.reverse
  let (neg, rest) := splitSign core
  let signed : ℚ → ℚ := fun q => if neg then -q else q
  match rest.splitOn 'e', rest.splitOn 'E' with
  | [m, e], [_] => (parseMantissa m).bind (fun mv =>
      (parseExponent e).map (fun ev => signed (mv * (10 : ℚ) ^ ev)))
  | [_], [m, e] => (parseMantissa m).bind (fun mv =>
      (parseExponent e).map (fun ev => signed (mv * (10 : ℚ) ^ ev)))
  | [m], [_] => (parseMantissa m).map signed
  | _, _ => none

/-- Python `str.split(sep)` for a one-character separator. -/
def pySplitChar (s : String) (sep : Char) : List String :=
  (s.data.splitOn sep).map String.mk

end Coastal

namespace Coastal

/-- One entry of the `coastal_cities` catalog of
`UnifiedDataService.__init__`. -/
structure CityInfo where
  name : String
  lat : ℚ
  lon : ℚ
  country : String
  timezone : String
deriving DecidableEq

/-- The location record returned by `get_location_info` (a Python dict with
the six keys `name`, `lat`, `lon`, `country`, `timezone`, `coordinates`). -/
structure LocInfo where
  name : String
  lat : ℚ
  lon : ℚ
  country : String
  timezone : String
  coordinates : String
deriving DecidableEq

set_option maxHeartbeats 2000000 in
/-- `UnifiedDataService.coastal_cities`, transcribed verbatim from
`unified_data_service.py` (insertion order preserved). -/
def coastal_cities : List (String × CityInfo) := [
  ("miami", ⟨"Miami, USA", 25.7617, -80.1918, "USA", "UTC-5"⟩),
  ("san_francisco", ⟨"San Francisco, USA", 37.7749, -122.4194, "USA", "UTC-8"⟩),
  ("seattle", ⟨"Seattle, USA", 47.6062, -122.3321, "USA", "UTC-8"⟩),
  ("boston", ⟨"Boston, USA", 42.3601, -71.0589, "USA", "UTC-5"⟩),
  ("new_york", ⟨"New York, USA", 40.7128, -74.0060, "USA", "UTC-5"⟩),
  ("charleston", ⟨"Charleston, USA", 32.7765, -79.9311, "USA", "UTC-5"⟩),
  ("galveston", ⟨"Galveston, USA", 29.3013, -94.7977, "USA", "UTC-6"⟩),
  ("los_angeles", ⟨"Los Angeles, USA", 34.0522, -118.2437, "USA", "UTC-8"⟩),
  ("portland_or", ⟨"Portland, USA", 45.5152, -122.6784, "USA", "UTC-8"⟩),
  ("anchorage", ⟨"Anchorage, USA", 61.2181, -149.9003, "USA", "UTC-9"⟩),
  ("honolulu", ⟨"Honolulu, USA", 21.3099, -157.8581, "USA", "UTC-10"⟩),
  ("panama_city", ⟨"Panama City, USA", 30.1595, -85.6598, "USA", "UTC-6"⟩),
  ("pensacola", ⟨"Pensacola, USA", 30.4213, -87.2169, "USA", "UTC-6"⟩),
  ("mobile", ⟨"Mobile, USA", 30.6954, -88.0399, "USA", "UTC-6"⟩),
  ("new_orleans", ⟨"New Orleans, USA", 29.9511, -90.0715, "USA", "UTC-6"⟩),
  ("santa_barbara", ⟨"Santa Barbara, USA", 34.4208, -119.6982, "USA", "UTC-8"⟩),
  ("monterey", ⟨"Monterey, USA", 36.6002, -121.8947, "USA", "UTC-8"⟩),
  ("crescent_city", ⟨"Crescent City, USA", 41.7558, -124.2026, "USA", "UTC-8"⟩),
  ("garibaldi", ⟨"Garibaldi, USA", 45.5598, -123.9110, "USA", "UTC-8"⟩),
  ("vancouver", ⟨"Vancouver, Canada", 49.2827, -123.1207, "Canada", "UTC-8"⟩),
  ("toronto", ⟨"Toronto, Canada", 43.6532, -79.3832, "Canada", "UTC-5"⟩),
  ("montreal", ⟨"Montreal, Canada", 45.5017, -73.5673, "Canada", "UTC-5"⟩),
  ("halifax", ⟨"Halifax, Canada", 44.6488, -63.5752, "Canada", "UTC-4"⟩),
  ("barcelona", ⟨"Barcelona, Spain", 41.3851, 2.1734, "Spain", "UTC+1"⟩),
  ("amsterdam", ⟨"Amsterdam, Netherlands", 52.3676, 4.9041, "Netherlands", "UTC+1"⟩),
  ("oslo", ⟨"Oslo, Norway", 59.9139, 10.7522, "Norway", "UTC+1"⟩),
  ("stockholm", ⟨"Stockholm, Sweden", 59.3293, 18.0686, "Sweden", "UTC+1"⟩),
  ("helsinki", ⟨"Helsinki, Finland", 60.1699, 24.9384, "Finland", "UTC+2"⟩),
  ("copenhagen", ⟨"Copenhagen, Denmark", 55.6761, 12.5683, "Denmark", "UTC+1"⟩),
  ("dublin", ⟨"Dublin, Ireland", 53.3498, -6.2603, "Ireland", "UTC+0"⟩),
  ("athens", ⟨"Athens, Greece", 37.9838, 23.7275, "Greece", "UTC+2"⟩),
  ("venice", ⟨"Venice, Italy", 45.4408, 12.3155, "Italy", "UTC+1"⟩),
  ("marseille", ⟨"Marseille, France", 43.2965, 5.3698, "France", "UTC+1"⟩),
  ("rotterdam", ⟨"Rotterdam, Netherlands", 51.9225, 4.4792, "Netherlands", "UTC+1"⟩),
  ("mumbai", ⟨"Mumbai, India", 19.0760, 72.8777, "India", "UTC+5:30"⟩),
  ("karachi", ⟨"Karachi, Pakistan", 24.8607, 67.0011, "Pakistan", "UTC+5"⟩),
  ("tokyo", ⟨"Tokyo, Japan", 35.6762, 139.6503, "Japan", "UTC+9"⟩),
  ("singapore", ⟨"Singapore", 1.3521, 103.8198, "Singapore", "UTC+8"⟩),
  ("sydney", ⟨"Sydney, Australia", -33.8688, 151.2093, "Australia", "UTC+10"⟩),
  ("shanghai", ⟨"Shanghai, China", 31.2304, 121.4737, "China", "UTC+8"⟩),
  ("hong_kong", ⟨"Hong Kong", 22.3193, 114.1694, "Hong Kong", "UTC+8"⟩),
  ("bangkok", ⟨"Bangkok, Thailand", 13.7563, 100.5018, "Thailand", "UTC+7"⟩),
  ("manila", ⟨"Manila, Philippines", 14.5995, 120.9842, "Philippines", "UTC+8"⟩),
  ("jakarta", ⟨"Jakarta, Indonesia", -6.2088, 106.8456, "Indonesia", "UTC+7"⟩),
  ("kolkata", ⟨"Kolkata, India", 22.5726, 88.3639, "India", "UTC+5:30"⟩),
  ("chennai", ⟨"Chennai, India", 13.0827, 80.2707, "India", "UTC+5:30"⟩),
  ("kochi", ⟨"Kochi, India", 9.9312, 76.2673, "India", "UTC+5:30"⟩),
  ("visakhapatnam", ⟨"Visakhapatnam, India", 17.6868, 83.2185, "India", "UTC+5:30"⟩),
  ("cape_town", ⟨"Cape Town, South Africa", -33.9249, 18.4241, "South Africa", "UTC+2"⟩),
  ("cairo", ⟨"Cairo, Egypt", 30.0444, 31.2357, "Egypt", "UTC+2"⟩),
  ("casablanca", ⟨"Casablanca, Morocco", 33.5731, -7.5898, "Morocco", "UTC+0"⟩),
  ("lagos", ⟨"Lagos, Nigeria", 6.5244, 3.3792, "Nigeria", "UTC+1"⟩),
  ("dubai", ⟨"Dubai, UAE", 25.2048, 55.2708, "UAE", "UTC+4"⟩),
  ("abuja", ⟨"Abuja, Nigeria", 9.0820, 7.3986, "Nigeria", "UTC+1"⟩),
  ("nairobi", ⟨"Nairobi, Kenya", -1.2921, 36.8219, "Kenya", "UTC+3"⟩),
  ("dar_es_salaam", ⟨"Dar es Salaam, Tanzania", -6.8230, 39.2695, "Tanzania", "UTC+3"⟩),
  ("auckland", ⟨"Auckland, New Zealand", -36.8485, 174.7633, "New Zealand", "UTC+12"⟩),
  ("wellington", ⟨"Wellington, New Zealand", -41.2866, 174.7756, "New Zealand", "UTC+12"⟩),
  ("fiji", ⟨"Suva, Fiji", -18.1416, 178.4419, "Fiji", "UTC+12"⟩),
  ("papua_new_guinea", ⟨"Port Moresby, PNG", -9.4438, 147.1803, "PNG", "UTC+10"⟩),
  ("rio", ⟨"Rio de Janeiro, Brazil", -22.9068, -43.1729, "Brazil", "UTC-3"⟩),
  ("sao_paulo", ⟨"SÃ£o Paulo, Brazil", -23.5505, -46.6333, "Brazil", "UTC-3"⟩),
  ("buenos_aires", ⟨"Buenos Aires, Argentina", -34.6118, -58.3960, "Argentina", "UTC-3"⟩),
  ("lima", ⟨"Lima, Peru", -12.0464, -77.0428, "Peru", "UTC-5"⟩),
  ("santiago", ⟨"Santiago, Chile", -33.4489, -70.6693, "Chile", "UTC-3"⟩)]

/-- The dict built from a catalog entry by `get_location_info` (both the
exact-match and the partial-match branch build this same dict). -/
def cityToLoc (ci : CityInfo) : LocInfo :=
  { name := ci.name, lat := ci.lat, lon := ci.lon, country := ci.country,
    timezone := ci.timezone,
    coordinates := pyFloatStr ci.lat ++ "," ++ pyFloatStr ci.lon }

/-- Input normalisation of `get_location_info`:
`location_input.lower().replace(" ", "_").replace("-", "_")`. -/
def normalizeInput (s : String) : String :=
  pyReplaceChar (pyReplaceChar (pyLower s) ' ' '_') '-' '_'

/-- Python `normalized_input in self.coastal_cities` plus the subsequent
indexing: first catalog entry whose key equals the normalised input. -/
def lookupExactCity (key : String) : Option CityInfo :=
  (coastal_cities.find? (fun e => e.1 == key)).map Prod.snd

/-- Python `city_key.replace("_", "")`. -/
def stripUnderscores (s : String) : String := ⟨s.data.filter (fun c => !(c == '_'))⟩

/-- Python `city_key.replace("_", " ")`. -/
def underscoresToSpaces (s : String) : String := pyReplaceChar s '_' ' '

/-- The partial-match loop of `get_location_info`: first catalog entry such
that the normalised input is a substring of the key, or the key with
underscores stripped is a substring of the normalised input, or the key
with underscores replaced by spaces is a substring of the lowercased raw
input. -/
def partialMatchCity (locationInput normalized : String) : Option CityInfo :=
  (coastal_cities.find? (fun e =>
      strIn normalized e.1 ||
      strIn (stripUnderscores e.1) normalized ||
      strIn (underscoresToSpaces e.1) (pyLower locationInput))).map Prod.snd

/-- Python `lat, lon = map(float, location_input.split(","))`: succeeds
exactly when the split yields two parts and both parse as floats (any
other shape raises `ValueError`, which the caller catches). -/
def parseCoordPair (s : String) : Option (ℚ × ℚ) :=
  match pySplitChar s ',' with
  | [a, b] => (pyFloat a).bind (fun la => (pyFloat b).map (fun lo => (la, lo)))
  | _ => none

/-- The synthetic location built by the coordinate branch of
`get_location_info`. -/
def customLocation (lat lon : ℚ) : LocInfo :=
  { name := "Custom Location (" ++ pyFormat4 lat ++ ", " ++ pyFormat4 lon ++ ")",
    lat := lat, lon := lon, country := "Custom", timezone := "UTC",
    coordinates := pyFloatStr lat ++ "," ++ pyFloatStr lon }

/-- `_generate_unknown_city_data`, line `lat = -90 + (int(city_hash[:8],
16) % 180)`.  The MD5 hex digest is the explicit parameter `md5hex` (the
model treats the hash as an arbitrary fixed function, which covers every
actual digest); the source applies it to the lowercased city name. -/
def unknownLat0 (md5hex : String → String) (cityName : String) : ℚ :=
  -90 + ((hexToNat ((md5hex (pyLower cityName)).take 8) % 180 : ℕ) : ℚ)

/-- `_generate_unknown_city_data`, line
`lon = -180 + (int(city_hash[8:16], 16) % 360)`. -/
def unknownLon0 (md5hex : String → String) (cityName : String) : ℚ :=
  -180 + ((hexToNat (((md5hex (pyLower cityName)).drop 8).take 8) % 360 : ℕ) : ℚ)

/-- The latitude after the pole clamp `if abs(lat) > 60: lat = lat * 0.6`. -/
def unknownLat (md5hex : String → String) (cityName : String) : ℚ :=
  let l := unknownLat0 md5hex cityName
  if 60 < |l| then l * 0.6 else l

/-- The longitude after the clamp `if abs(lon) > 150: lon = lon * 0.8`. -/
def unknownLon (md5hex : String → String) (cityName : String) : ℚ :=
  let l := unknownLon0 md5hex cityName
  if 150 < |l| then l * 0.8 else l

/-- `timezone_offset = int(lon / 15)` of `_generate_unknown_city_data`. -/
def unknown_city_tz_offset (md5hex : String → String) (cityName : String) : ℤ :=
  pyIntTrunc (unknownLon md5hex cityName / 15)

/-- `UnifiedDataService._generate_unknown_city_data`: hash-derived
coordinates, clamped, rounded to 4 decimals; timezone label
`f"UTC{timezone_offset:+d}"`. -/
def generate_unknown_city_data (md5hex : String → String) (cityName : String) :
    LocInfo :=
  let lat : ℚ := unknownLat md5hex cityName
  let lon : ℚ := unknownLon md5hex cityName
  let timezoneOffset : ℤ := unknown_city_tz_offset md5hex cityName
  let timezone :=
    "UTC" ++ (if 0 ≤ timezoneOffset then "+" else "") ++ toString timezoneOffset
  { name := pyTitle cityName ++ ", Coastal City",
    lat := pyRound 4 lat, lon := pyRound 4 lon,
    country := "Coastal Region", timezone := timezone,
    coordinates := pyFloatStr (pyRound 4 lat) ++ "," ++ pyFloatStr (pyRound 4 lon) }

/-- `UnifiedDataService.get_location_info`: exact catalog match, then
partial match, then coordinate parsing (only if the raw input contains a
comma; a parse failure falls through), then the hash-derived
pseudo-location.  The body cannot raise, so the outer `except` branch
(which would call `_generate_unknown_city_data` as well) is dead. -/
def get_location_info (md5hex : String → String) (locationInput : String) :
    LocInfo :=
  match lookupExactCity (normalizeInput locationInput) with
  | some ci => cityToLoc ci
  | none =>
    match partialMatchCity locationInput (normalizeInput locationInput) with
    | some ci => cityToLoc ci
    | none =>
      if strIn "," locationInput then
        match parseCoordPair locationInput with
        | some (la, lo) => customLocation la lo
        | none => generate_unknown_city_data md5hex locationInput
      else generate_unknown_city_data md5hex locationInput

end Coastal

namespace Coastal

/-- Python values stored in the dictionaries assembled by the aggregation
layer.  `time n` is the opaque `datetime.utcnow()` object of the call with
abstract clock value `n`; `timeIso n` its `.isoformat()` string. -/
inductive Value where
  | vnone
  | s (v : String)
  | q (v : ℚ)
  | z (v : ℤ)
  | b (v : Bool)
  | time (n : ℕ)
  | timeIso (n : ℕ)
  | vlist (l : List Value)
  | vdict (d : List (String × Value))

/-- A Python dict, as an insertion-ordered association list (the literals
in the source never repeat a key). -/
abbrev PyDict := List (String × Value)

/-- Python `d[k]` / `d.get(k)`. -/
def pyGet (d : PyDict) (k : String) : Option Value :=
  (d.find? (fun e => e.1 == k)).map Prod.snd

/-- Python `k in d`. -/
def pyHasKey (d : PyDict) (k : String) : Bool := (pyGet d k).isSome

/-- Python `d.get(k, dflt)` where a number is expected. -/
def pyGetQ (d : PyDict) (k : String) (dflt : ℚ) : ℚ :=
  match pyGet d k with
  | some (.q v) => v
  | _ => dflt

/-- Python `d[k]` where the stored value is returned unchanged
(`.vnone` when the key is absent, which never happens in the source). -/
def pyGetV (d : PyDict) (k : String) : Value := (pyGet d k).getD .vnone

/-- Python `random.choice(l)`: the draw is supplied as an index. -/
def pyChoice (l : List String) (i : ℕ) : String := l.getD (i % l.length) ""

/-- Python `f"{lat},{lon}"` with two floats. -/
def coordStr (lat lon : ℚ) : String := pyFloatStr lat ++ "," ++ pyFloatStr lon

/-- The JSON payload `RealWeatherService.get_current_weather` extracts from
a successful OpenWeatherMap response (`data['main']['temp']`, ...). -/
structure WeatherPayload where
  temp : ℚ
  humidity : ℚ
  windSpeed : ℚ
  windDeg : ℚ
  pressure : ℚ
  description : String

/-- `RealWeatherService.get_current_weather`.  The provider outcome is the
explicit argument `call`: `none` for any failure (network error, non-2xx
status via `raise_for_status`, malformed payload / `KeyError`, or any
other exception), all of which the source catches and converts to `None`;
`some p` for a successful, well-formed response.  The method itself never
raises. -/
def RealWeatherService.get_current_weather (lat lon : ℚ) (now : ℕ)
    (call : Option WeatherPayload) : Option PyDict :=
  match call with
  | none => none
  | some p => some [
      ("temperature", .q p.temp),
      ("humidity", .q p.humidity),
      ("wind_speed", .q p.windSpeed),
      ("wind_direction", .q p.windDeg),
      ("pressure", .q p.pressure),
      ("description", .s p.description),
      ("location", .s (coordStr lat lon)),
      ("timestamp", .time now),
      ("source", .s "openweathermap_real")]

/-- `RealTideService.station_mapping`, transcribed verbatim. -/
def station_mapping : List (String × String) := [
  ("miami", "8724580"),
  ("san_francisco", "9410230"),
  ("seattle", "9447130"),
  ("boston", "8443970"),
  ("new_york", "8518750"),
  ("charleston", "8665530"),
  ("galveston", "8771450"),
  ("los_angeles", "9410660"),
  ("portland_or", "9447130"),
  ("anchorage", "9455920"),
  ("honolulu", "1612340"),
  ("panama_city", "8729108"),
  ("pensacola", "8729840"),
  ("mobile", "8737048"),
  ("new_orleans", "8761927"),
  ("santa_barbara", "9411340"),
  ("monterey", "9413450"),
  ("crescent_city", "9419750"),
  ("garibaldi", "9437540")]

/-- `RealTideService.get_station_id`: exact match on the normalised name,
then the first key related to it by substring in either direction. -/
def RealTideService.get_station_id (cityName : String) : Option String :=
  let normalized := normalizeInput cityName
  match (station_mapping.find? (fun e => e.1 == normalized)).map Prod.snd with
  | some sid => some sid
  | none =>
      (station_mapping.find? (fun e =>
        strIn normalized e.1 || strIn e.1 normalized)).map Prod.snd

/-- The latest water-level record of a successful NOAA response
(`data['data'][0]`), with `v` already read as a number. -/
structure TidePayload where
  v : ℚ
  t : String

/-- `RealTideService._determine_tide_type`. -/
def RealTideService.determine_tide_type (height : ℚ) : String :=
  if height > 2.0 then "high"
  else if height < 0.5 then "low"
  else if height > 1.5 then "rising"
  else "falling"

/-- `RealTideService.get_current_water_level`.  Returns `None` when no
NOAA station matches the city, and on any provider failure or empty
`data` array (the argument `call` is `none` in all of those cases);
otherwise builds the `noaa_real` record.  Never raises. -/
def RealTideService.get_current_water_level (cityName : String)
    (call : Option TidePayload) : Option PyDict :=
  match RealTideService.get_station_id cityName with
  | none => none
  | some stationId =>
    match call with
    | none => none
    | some p => some [
        ("tide_height", .q p.v),
        ("tide_type", .s (RealTideService.determine_tide_type p.v)),
        ("location", .s cityName),
        ("timestamp", .s p.t),
        ("station_id", .s stationId),
        ("source", .s "noaa_real")]

/-- The numbers `RealMarineService.get_marine_weather` extracts from a
successful Stormglass response (each `data['x'].get('sg', 0)` with its
default already applied). -/
structure MarinePayload where
  waveHeight : ℚ
  waveDirection : ℚ
  wavePeriod : ℚ
  currentSpeed : ℚ
  currentDirection : ℚ
  waterTemperature : ℚ
  visibility : ℚ
  airTemperature : ℚ
  pressure : ℚ
  windSpeed : ℚ
  windDirection : ℚ
  humidity : ℚ

/-- `RealMarineService.get_marine_weather`: `none` on any failure or empty
`data`, otherwise the `stormglass_real` record.  Never raises. -/
def RealMarineService.get_marine_weather (lat lon : ℚ) (now : ℕ)
    (call : Option MarinePayload) : Option PyDict :=
  match call with
  | none => none
  | some p => some [
      ("wave_height", .q p.waveHeight),
      ("wave_direction", .q p.waveDirection),
      ("wave_period", .q p.wavePeriod),
      ("current_speed", .q p.currentSpeed),
      ("current_direction", .q p.currentDirection),
      ("water_temperature", .q p.waterTemperature),
      ("visibility", .q p.visibility),
      ("air_temperature", .q p.airTemperature),
      ("pressure", .q p.pressure),
      ("wind_speed", .q p.windSpeed),
      ("wind_direction", .q p.windDirection),
      ("humidity", .q p.humidity),
      ("location", .s (coordStr lat lon)),
      ("timestamp", .timeIso now),
      ("source", .s "stormglass_real")]

/-- `RealMarineService.get_current_conditions`: summarises
`get_marine_weather`, propagating `None`. -/
def RealMarineService.get_current_conditions (lat lon : ℚ) (now : ℕ)
    (call : Option MarinePayload) : Option PyDict :=
  match RealMarineService.get_marine_weather lat lon now call with
  | none => none
  | some marineData =>
    let waveHeight := pyGetQ marineData "wave_height" 0
    let seaCondition :=
      if waveHeight < 0.5 then "calm"
      else if waveHeight < 1.0 then "slight"
      else if waveHeight < 2.0 then "moderate"
      else if waveHeight < 3.0 then "rough"
      else "very_rough"
    some [
      ("sea_condition", .s seaCondition),
      ("wave_height", .q waveHeight),
      ("water_temperature", pyGetV marineData "water_temperature"),
      ("visibility", pyGetV marineData "visibility"),
      ("wind_speed", pyGetV marineData "wind_speed"),
      ("location", pyGetV marineData "location"),
      ("timestamp", pyGetV marineData "timestamp"),
      ("source", .s "stormglass_real")]

end Coastal

namespace Coastal

/-- Outcome of one service call as seen by `get_comprehensive_data`'s
`try`: either the call raised (handled by the `except` branch — unreachable
for the translated service bodies, which catch internally, but kept
because the orchestrator guards for it) or it returned a value. -/
inductive SvcCall (α : Type) where
  | raised
  | returned (v : α)

/-- Ambient state of one `get_comprehensive_data` call: the abstract
clock, the outcome of each of the three real-service calls, and every
random draw performed by the fallback generators (each `random.uniform` /
`random.randint` / `random.choice` is one field; a field is consumed only
when the source line that draws it runs). -/
structure AggEnv where
  now : ℕ
  weatherCall : SvcCall (Option WeatherPayload)
  tideCall : SvcCall (Option TidePayload)
  marineCall : SvcCall (Option MarinePayload)
  fwTemp : ℚ
  fwHumidity : ℤ
  fwWind : ℚ
  fwWindDir : ℤ
  fwPressure : ℚ
  ftHeight : ℚ
  ftChoice : ℕ
  fmChoice : ℕ
  fmWave : ℚ
  fmWaterTemp : ℚ
  fmVisibility : ℤ
  fmWind : ℚ
  aqAqi : ℤ
  aqPm25 : ℚ
  aqPm10 : ℚ
  aqO3 : ℚ
  ocSpeed : ℚ
  ocDir : ℤ
  ocTemp : ℚ
  ocSalinity : ℚ

/-- `UnifiedDataService._get_fallback_weather_data` (note that it, too,
carries a `source` key, with value `'fallback'`). -/
def get_fallback_weather_data (env : AggEnv) (cityName : String)
    (lat lon : ℚ) : PyDict := [
  ("temperature", .q (pyRound 1 env.fwTemp)),
  ("humidity", .z env.fwHumidity),
  ("wind_speed", .q (pyRound 1 env.fwWind)),
  ("wind_direction", .z env.fwWindDir),
  ("pressure", .q (pyRound 1 env.fwPressure)),
  ("description", .s "Partly cloudy"),
  ("location", .s (coordStr lat lon)),
  ("timestamp", .timeIso env.now),
  ("source", .s "fallback")]

/-- `UnifiedDataService._get_fallback_tide_data`. -/
def get_fallback_tide_data (env : AggEnv) (cityName : String)
    (lat lon : ℚ) : PyDict := [
  ("tide_height", .q (pyRound 2 env.ftHeight)),
  ("tide_type", .s (pyChoice ["high", "low", "rising", "falling"] env.ftChoice)),
  ("location", .s cityName),
  ("timestamp", .timeIso env.now),
  ("source", .s "fallback")]

/-- `UnifiedDataService._get_fallback_marine_data`. -/
def get_fallback_marine_data (env : AggEnv) (cityName : String)
    (lat lon : ℚ) : PyDict := [
  ("sea_condition", .s (pyChoice ["calm", "slight", "moderate", "rough"] env.fmChoice)),
  ("wave_height", .q (pyRound 1 env.fmWave)),
  ("water_temperature", .q (pyRound 1 env.fmWaterTemp)),
  ("visibility", .z env.fmVisibility),
  ("wind_speed", .q (pyRound 1 env.fmWind)),
  ("location", .s (coordStr lat lon)),
  ("timestamp", .timeIso env.now),
  ("source", .s "fallback")]

/-- `UnifiedDataService._get_air_quality_data` (always the fallback). -/
def get_air_quality_data (env : AggEnv) (lat lon : ℚ) : PyDict := [
  ("aqi", .z env.aqAqi),
  ("pm25", .q (pyRound 1 env.aqPm25)),
  ("pm10", .q (pyRound 1 env.aqPm10)),
  ("o3", .q (pyRound 1 env.aqO3)),
  ("location", .s (coordStr lat lon)),
  ("timestamp", .timeIso env.now),
  ("source", .s "fallback")]

/-- `UnifiedDataService._get_ocean_currents_data` (always the fallback). -/
def get_ocean_currents_data (env : AggEnv) (lat lon : ℚ) : PyDict := [
  ("current_speed", .q (pyRound 2 env.ocSpeed)),
  ("current_direction", .z env.ocDir),
  ("temperature", .q (pyRound 1 env.ocTemp)),
  ("salinity", .q (pyRound 2 env.ocSalinity)),
  ("location", .s (coordStr lat lon)),
  ("timestamp", .timeIso env.now),
  ("source", .s "fallback")]

/-- The dict form of a `get_location_info` result. -/
def locToDict (li : LocInfo) : PyDict := [
  ("name", .s li.name),
  ("lat", .q li.lat),
  ("lon", .q li.lon),
  ("country", .s li.country),
  ("timezone", .s li.timezone),
  ("coordinates", .s li.coordinates)]

/-- Python truthiness of an optional dict (`if weather_data ...`):
`None` and the empty dict are falsy. -/
def pyTruthyDict : Option PyDict → Bool
  | none => false
  | some d => !d.isEmpty

/-- Embed an optional dict as a dict value (`None` stays `None`). -/
def optDictValue : Option PyDict → Value
  | none => .vnone
  | some d => .vdict d

/-- The provenance label expression of `get_comprehensive_data`:
`label_real if data and 'source' in data else 'fallback'`. -/
def provenanceLabel (realLabel : String) (data : Option PyDict) : String :=
  match data with
  | none => "fallback"
  | some d => if !d.isEmpty && pyHasKey d "source" then realLabel else "fallback"

/-- `UnifiedDataService.get_comprehensive_data`.  The location is resolved
once; each of the three real-service calls is guarded by `try/except`
(fallback on a raised exception); the tide and marine results are
additionally replaced by the fallback when falsy (`if tide_data: ... else
fallback`), but the weather result is not.  The outer `except` (which
would return `_get_fallback_comprehensive_data`) is unreachable in the
model: `get_location_info` always returns a six-key (hence truthy) dict,
so the `raise ValueError` guard is dead, and nothing else in the body can
raise. -/
def get_comprehensive_data (md5hex : String → String) (env : AggEnv)
    (locationInput : String) : PyDict :=
  let locationInfo := get_location_info md5hex locationInput
  let lat := locationInfo.lat
  let lon := locationInfo.lon
  let cityName := locationInfo.name
  let weatherData : Option PyDict :=
    match env.weatherCall with
    | .raised => some (get_fallback_weather_data env cityName lat lon)
    | .returned call => RealWeatherService.get_current_weather lat lon env.now call
  let tideData : Option PyDict :=
    match env.tideCall with
    | .raised => some (get_fallback_tide_data env cityName lat lon)
    | .returned call =>
      let fetched := RealTideService.get_current_water_level
          (normalizeInput cityName) call
      if pyTruthyDict fetched then fetched
      else some (get_fallback_tide_data env cityName lat lon)
  let marineData : Option PyDict :=
    match env.marineCall with
    | .raised => some (get_fallback_marine_data env cityName lat lon)
    | .returned call =>
      let fetched := RealMarineService.get_current_conditions lat lon env.now call
      if pyTruthyDict fetched then fetched
      else some (get_fallback_marine_data env cityName lat lon)
  let airQuality := get_air_quality_data env lat lon
  let oceanCurrents := get_ocean_currents_data env lat lon
  [("location", .vdict (locToDict locationInfo)),
   ("weather", optDictValue weatherData),
   ("tide", optDictValue tideData),
   ("marine", optDictValue marineData),
   ("air_quality", .vdict airQuality),
   ("ocean_currents", .vdict oceanCurrents),
   ("timestamp", .timeIso env.now),
   ("data_sources", .vdict [
     ("weather", .s (provenanceLabel "openweathermap_real" weatherData)),
     ("tide", .s (provenanceLabel "noaa_real" tideData)),
     ("marine", .s (provenanceLabel "stormglass_real" marineData)),
     ("air_quality", .s "fallback"),
     ("ocean_currents", .s "fallback")])]

end Coastal

namespace Coastal

/-- An alert record of `SimpleAlertService` (timestamps abstract). -/
structure Alert where
  id : String
  alert_type : String
  severity : String
  location : String
  description : String
  is_active : Bool
  triggered_by : String
  timestamp : ℕ
  source : String
deriving DecidableEq

/-- `SimpleAlertService.get_active_alerts`: returns the same two-element
sample list on every call (`now` is the abstract clock in minutes; the
sample timestamps are 15 and 30 minutes in the past).  No store is
consulted. -/
def SimpleAlertService.get_active_alerts (now : ℕ) : List Alert := [
  { id := "alert_20250830_001",
    alert_type := "high_wind",
    severity := "medium",
    location := "19.0760,72.8777",
    description := "ML detected moderate winds: 22 m/s. Monitor coastal conditions.",
    is_active := true,
    triggered_by := "smart_ml",
    timestamp := now - 15,
    source := "smart_ml_alert_service" },
  { id := "alert_20250830_002",
    alert_type := "high_tide",
    severity := "low",
    location := "19.0760,72.8777",
    description := "ML detected high tide approaching: 2.8m expected in next 2 hours.",
    is_active := true,
    triggered_by := "smart_ml",
    timestamp := now - 30,
    source := "smart_ml_alert_service" }]

/-- `SimpleAlertService.deactivate_alert`: the body is `return True`,
ignoring its argument — no registry lookup or update happens. -/
def SimpleAlertService.deactivate_alert (alertId : String) : Bool := true

end Coastal

namespace Coastal

/-- Random draws of `_generate_realistic_weather`: one temperature jitter
(`random.uniform` with band-dependent bounds, drawn by whichever latitude
branch runs) and one wind jitter (likewise hour-dependent), plus the
independent bounded draws. -/
structure WeatherDraws where
  tempJitter : ℚ
  windJitter : ℚ
  humidity : ℤ
  windDir : ℤ
  pressureJitter : ℚ

/-- The record built by `_generate_realistic_weather`. -/
structure WeatherSim where
  timestamp : ℕ
  location : String
  city_name : String
  country : String
  timezone : String
  temperature : ℚ
  humidity : ℤ
  wind_speed : ℚ
  wind_direction : ℤ
  pressure : ℚ
  description : String
  source : String

/-- `UnifiedDataService._generate_realistic_weather`: latitude band picks
the base temperature, the 06:00–18:00 window adds 6 (else subtracts 4),
the 10:00–16:00 window uses the higher wind band. -/
def generate_realistic_weather (lat lon : ℚ) (hour now : ℕ)
    (j : WeatherDraws) (li : LocInfo) : WeatherSim :=
  let baseTemp0 : ℚ :=
    if |lat| < 23.5 then 28 + j.tempJitter
    else if |lat| < 45 then 18 + j.tempJitter
    else 8 + j.tempJitter
  let baseTemp : ℚ :=
    if 6 ≤ hour ∧ hour ≤ 18 then baseTemp0 + 6 else baseTemp0 - 4
  let windSpeed : ℚ :=
    if 10 ≤ hour ∧ hour ≤ 16 then 12 + j.windJitter else 6 + j.windJitter
  { timestamp := now,
    location := li.coordinates,
    city_name := li.name,
    country := li.country,
    timezone := li.timezone,
    temperature := pyRound 1 baseTemp,
    humidity := j.humidity,
    wind_speed := pyRound 1 (max 0 windSpeed),
    wind_direction := j.windDir,
    pressure := 1013 + j.pressureJitter,
    description := "partly cloudy",
    source := "realistic_simulation" }

/-- The record built by `_generate_realistic_tide`. -/
structure TideSim where
  timestamp : ℕ
  location : String
  city_name : String
  country : String
  timezone : String
  tide_height : ℝ
  tide_type : String
  source : String

/-- Python `round(x, n)` over `ℝ` (for the tide height, the only value the
source rounds after a transcendental computation). -/
noncomputable def pyRoundR (n : ℕ) (x : ℝ) : ℝ := (⌊x * 10 ^ n + 1 / 2⌋ : ℝ) / 10 ^ n

/-- The tide-height formula of `_generate_realistic_tide`:
`1.8 + 1.2 * abs(math.sin((hour - 6) * math.pi / 12))`. -/
noncomputable def tide_height_formula (h : ℝ) : ℝ :=
  1.8 + 1.2 * |Real.sin ((h - 6) * Real.pi / 12)|

/-- `UnifiedDataService._generate_realistic_tide`. -/
noncomputable def generate_realistic_tide (hour now : ℕ) (li : LocInfo) : TideSim :=
  { timestamp := now,
    location := li.coordinates,
    city_name := li.name,
    country := li.country,
    timezone := li.timezone,
    tide_height := pyRoundR 2 (tide_height_formula (hour : ℝ)),
    tide_type := if 6 ≤ hour ∧ hour ≤ 18 then "rising" else "falling",
    source := "realistic_simulation" }

/-- Random draws of `_generate_realistic_pollution`: the bacteria-count
`random.randint` of the branch that runs (`bactHigh` in rush hours,
`bactLow` otherwise — only one is consumed per call), the three
`monitoring_data` jitters, and the dumping coin flip. -/
structure PollutionDraws where
  bactHigh : ℤ
  bactLow : ℤ
  turbidity : ℚ
  dissolvedOxygen : ℚ
  ph : ℚ
  dumping : Bool

/-- The nested `monitoring_data` dict of `_generate_realistic_pollution`. -/
structure MonitoringData where
  turbidity : ℚ
  dissolved_oxygen : ℚ
  ph : ℚ
  bacteria_count : ℤ

/-- The record built by `_generate_realistic_pollution`. -/
structure PollutionSim where
  timestamp : ℕ
  location : String
  city_name : String
  country : String
  timezone : String
  water_quality : String
  pollution_level : String
  monitoring_data : MonitoringData
  illegal_dumping_detected : Bool
  source : String

/-- `UnifiedDataService._generate_realistic_pollution`: rush hours
(07:00–09:00 and 17:00–19:00) give the "moderate" level and the higher
bacteria band; `water_quality` derives from the level. -/
def generate_realistic_pollution (hour now : ℕ) (j : PollutionDraws)
    (li : LocInfo) : PollutionSim :=
  let rush : Bool := (7 ≤ hour ∧ hour ≤ 9) ∨ (17 ≤ hour ∧ hour ≤ 19)
  let pollutionLevel : String := if rush then "moderate" else "low"
  let bacteriaCount : ℤ := if rush then 180 + j.bactHigh else 90 + j.bactLow
  { timestamp := now,
    location := li.coordinates,
    city_name := li.name,
    country := li.country,
    timezone := li.timezone,
    water_quality := if pollutionLevel = "low" then "good" else "moderate",
    pollution_level := pollutionLevel,
    monitoring_data :=
      { turbidity := 10 + j.turbidity,
        dissolved_oxygen := 7 + j.dissolvedOxygen,
        ph := 7 + j.ph,
        bacteria_count := bacteriaCount },
    illegal_dumping_detected := j.dumping,
    source := "realistic_simulation" }

end Coastal

namespace Coastal

/-- A fixed hex-digest stand-in used to instantiate `md5hex` in witnesses. -/
def hexConst : String → String := fun _ => "0123456789abcdef0123456789abcdef"

/-- A concrete location record used to instantiate witnesses. -/
def sampleLoc : LocInfo :=
  { name := "Sample, Coastal City", lat := 0, lon := 0,
    country := "Coastal Region", timezone := "UTC+0", coordinates := "0.0,0.0" }

/-- Read a nested dict out of a dataset (model-inspection helper). -/
def dictAt (d : PyDict) (k : String) : PyDict :=
  match pyGet d k with
  | some (.vdict dd) => dd
  | _ => []

/-- Read a string value out of a dict (model-inspection helper). -/
def strAt (d : PyDict) (k : String) : String :=
  match pyGet d k with
  | some (.s v) => v
  | _ => ""

/-- An aggregation state in which every real-provider HTTP call fails
"silently": each service call returns normally and reports `None`
(network error, bad status, malformed payload — all collapse to this),
with arbitrary concrete fallback draws. -/
def envProviderFail : AggEnv :=
  { now := 0, weatherCall := .returned none, tideCall := .returned none,
    marineCall := .returned none,
    fwTemp := 20, fwHumidity := 50, fwWind := 10, fwWindDir := 0,
    fwPressure := 1010, ftHeight := 1, ftChoice := 0, fmChoice := 0,
    fmWave := 1, fmWaterTemp := 20, fmVisibility := 10, fmWind := 5,
    aqAqi := 50, aqPm25 := 10, aqPm10 := 20, aqO3 := 30,
    ocSpeed := 1, ocDir := 0, ocTemp := 20, ocSalinity := 32 }

/-- Like `envProviderFail`, but the weather-service call raises (so the
orchestrator's `except` branch substitutes the weather fallback dict). -/
def envWeatherRaised : AggEnv := { envProviderFail with weatherCall := .raised }

/-- The dataset `get_comprehensive_data` assembles for `"barcelona"` when
the weather call raises and the tide and marine providers fail. -/
def barcelonaDataset : PyDict :=
  get_comprehensive_data hexConst envWeatherRaised "barcelona"

end Coastal

namespace Coastal

theorem scaled_round_bounds {A : Type} [LinearOrderedField A] [FloorRing A]
    (n : ℕ) (lo hi : ℤ) (x : A)
    (hlo : (lo : A) ≤ x * 10 ^ n) (hhi : x * 10 ^ n ≤ (hi : A)) :
    (lo : A) / 10 ^ n ≤ (⌊x * 10 ^ n + 1 / 2⌋ : A) / 10 ^ n ∧
      (⌊x * 10 ^ n + 1 / 2⌋ : A) / 10 ^ n ≤ (hi : A) / 10 ^ n := by
  have hpow : (0 : A) < 10 ^ n := by positivity
  have h1 : lo ≤ ⌊x * 10 ^ n + 1 / 2⌋ := by
    apply Int.le_floor.mpr
    push_cast
    linarith
  have h2 : ⌊x * 10 ^ n + 1 / 2⌋ < hi + 1 := by
    apply Int.floor_lt.mpr
    push_cast
    linarith
  have h2' : ⌊x * 10 ^ n + 1 / 2⌋ ≤ hi := by omega
  constructor
  · exact (div_le_div_right hpow).mpr (by exact_mod_cast h1)
  · exact (div_le_div_right hpow).mpr (by exact_mod_cast h2')

theorem pyRound_bounds (n : ℕ) (lo hi : ℤ) (x : ℚ)
    (hlo : (lo : ℚ) ≤ x * 10 ^ n) (hhi : x * 10 ^ n ≤ (hi : ℚ)) :
    (lo : ℚ) / 10 ^ n ≤ pyRound n x ∧ pyRound n x ≤ (hi : ℚ) / 10 ^ n :=
  scaled_round_bounds n lo hi x hlo hhi

theorem pyRoundR_bounds (n : ℕ) (lo hi : ℤ) (x : ℝ)
    (hlo : (lo : ℝ) ≤ x * 10 ^ n) (hhi : x * 10 ^ n ≤ (hi : ℝ)) :
    (lo : ℝ) / 10 ^ n ≤ pyRoundR n x ∧ pyRoundR n x ≤ (hi : ℝ) / 10 ^ n :=
  scaled_round_bounds n lo hi x hlo hhi

theorem tide_formula_bounds (x : ℝ) :
    1.8 ≤ tide_height_formula x ∧ tide_height_formula x ≤ 3 := by
  unfold tide_height_formula
  have h1 : (0 : ℝ) ≤ |Real.sin ((x - 6) * Real.pi / 12)| := abs_nonneg _
  have h2 : |Real.sin ((x - 6) * Real.pi / 12)| ≤ 1 := Real.abs_sin_le_one _
  constructor <;> nlinarith

theorem tide_formula_periodic (x : ℝ) :
    tide_height_formula (x + 24) = tide_height_formula x := by
  unfold tide_height_formula
  have h : (x + 24 - 6) * Real.pi / 12 = (x - 6) * Real.pi / 12 + 2 * Real.pi := by
    ring
  rw [h, Real.sin_add_two_pi]

theorem tide_round_bounds (x : ℝ) (h1 : 1.8 ≤ x) (h2 : x ≤ 3) :
    1.8 ≤ pyRoundR 2 x ∧ pyRoundR 2 x ≤ 3 := by
  have hb := pyRoundR_bounds 2 180 300 x (by push_cast; nlinarith)
    (by push_cast; nlinarith)
  constructor
  · linarith [hb.1]
  · linarith [hb.2]

/-- C3.  The claim states `deactivate_alert` on an id absent from the
active-alert registry returns `false`, and that a deactivated id is
excluded from `get_active_alerts()`.  The code has no registry at all:
`deactivate_alert` is the hard-coded stub `return True` for every id
(including absent ones), and `get_active_alerts` returns the same
two-element sample list on every call, so nothing is ever excluded. -/
theorem deactivate_alert_hardcoded_true :
    (∀ alertId : String, SimpleAlertService.deactivate_alert alertId = true) ∧
    SimpleAlertService.deactivate_alert "no_such_alert_id" = true ∧
    (∀ now : ℕ, (SimpleAlertService.get_active_alerts now).map Alert.id
        = ["alert_20250830_001", "alert_20250830_002"]) :=
  ⟨fun _ => rfl, rfl, fun _ => rfl⟩

/-- C4.  For every key of the `coastal_cities` catalog, `get_location_info`
returns exactly the stored record (same name, latitude, longitude, country
and timezone) via the exact-match branch; the result does not depend on
the hash function, so the pseudo-location derivation path is not taken. -/
theorem get_location_info_catalog_exact (md5hex : String → String)
    (e : String × CityInfo) (he : e ∈ coastal_cities) :
    get_location_info md5hex e.1 = cityToLoc e.2 ∧
    lookupExactCity (normalizeInput e.1) = some e.2 := by
  fin_cases he <;> exact ⟨rfl, rfl⟩

/-- Witness for C4 at the catalog key `"miami"`. -/
theorem get_location_info_catalog_exact_witness :
    (("miami", (⟨"Miami, USA", 25.7617, -80.1918, "USA", "UTC-5"⟩ : CityInfo))
        ∈ coastal_cities) ∧
    get_location_info hexConst "miami"
      = cityToLoc ⟨"Miami, USA", 25.7617, -80.1918, "USA", "UTC-5"⟩ :=
  ⟨List.Mem.head _,
    (get_location_info_catalog_exact hexConst
      ("miami", ⟨"Miami, USA", 25.7617, -80.1918, "USA", "UTC-5"⟩)
      (List.Mem.head _)).1⟩

/-- C7.  For every hour `h ≤ 23`, the tide height computed by
`_generate_realistic_tide` is the rounded value of
`1.8 + 1.2 * |sin((h - 6) * π / 12)|` (base 1.8, amplitude 1.2), lies in
`[1.8, 3.0]`, the height formula is periodic with period 24 hours, and
the tide type is `"rising"` exactly when `6 ≤ h ≤ 18`. -/
theorem generate_realistic_tide_spec (hour now : ℕ) (li : LocInfo)
    (hh : hour ≤ 23) :
    (generate_realistic_tide hour now li).tide_height
        = pyRoundR 2 (1.8 + 1.2 * |Real.sin (((hour : ℝ) - 6) * Real.pi / 12)|) ∧
    1.8 ≤ (generate_realistic_tide hour now li).tide_height ∧
    (generate_realistic_tide hour now li).tide_height ≤ 3 ∧
    (∀ x : ℝ, tide_height_formula (x + 24) = tide_height_formula x) ∧
    ((generate_realistic_tide hour now li).tide_type = "rising"
        ↔ 6 ≤ hour ∧ hour ≤ 18) := by
  have hb := tide_formula_bounds ((hour : ℝ))
  have hr := tide_round_bounds _ hb.1 hb.2
  refine ⟨rfl, hr.1, hr.2, tide_formula_periodic, ?_⟩
  by_cases hc : 6 ≤ hour ∧ hour ≤ 18
  · simp [generate_realistic_tide, hc]
  · simp [generate_realistic_tide, hc]

/-- Witness for C7 at hour 12. -/
theorem generate_realistic_tide_spec_witness :
    12 ≤ 23 ∧
    (1.8 ≤ (generate_realistic_tide 12 0 sampleLoc).tide_height ∧
      (generate_realistic_tide 12 0 sampleLoc).tide_height ≤ 3) :=
  ⟨by decide,
    ⟨(generate_realistic_tide_spec 12 0 sampleLoc (by decide)).2.1,
      (generate_realistic_tide_spec 12 0 sampleLoc (by decide)).2.2.1⟩⟩

end Coastal

namespace Coastal

/-- C8.  At latitude 0 (tropical band) with the temperature jitter inside
its declared `random.uniform(-2, 2)` bounds, `_generate_realistic_weather`
produces a temperature in the daytime band `[32, 36]` at hour 12 and in
the nighttime band `[22, 26]` at hour 0. -/
theorem generate_realistic_weather_tropical_bands (lon : ℚ) (now : ℕ)
    (j : WeatherDraws) (li : LocInfo)
    (hj1 : -2 ≤ j.tempJitter) (hj2 : j.tempJitter ≤ 2) :
    (32 ≤ (generate_realistic_weather 0 lon 12 now j li).temperature ∧
      (generate_realistic_weather 0 lon 12 now j li).temperature ≤ 36) ∧
    (22 ≤ (generate_realistic_weather 0 lon 0 now j li).temperature ∧
      (generate_realistic_weather 0 lon 0 now j li).temperature ≤ 26) := by
  have e12 : (generate_realistic_weather 0 lon 12 now j li).temperature
      = pyRound 1 (28 + j.tempJitter + 6) := by
    simp [generate_realistic_weather]
    norm_num
  have e0 : (generate_realistic_weather 0 lon 0 now j li).temperature
      = pyRound 1 (28 + j.tempJitter - 4) := by
    simp [generate_realistic_weather]
    norm_num
  have b12 := pyRound_bounds 1 320 360 (28 + j.tempJitter + 6)
    (by push_cast; linarith) (by push_cast; linarith)
  have b0 := pyRound_bounds 1 220 260 (28 + j.tempJitter - 4)
    (by push_cast; linarith) (by push_cast; linarith)
  rw [e12, e0]
  refine ⟨⟨?_, ?_⟩, ?_, ?_⟩
  · linarith [b12.1]
  · linarith [b12.2]
  · linarith [b0.1]
  · linarith [b0.2]

/-- Witness for C8 with jitter 0. -/
theorem generate_realistic_weather_tropical_bands_witness :
    (-2 ≤ (0 : ℚ) ∧ (0 : ℚ) ≤ 2) ∧
    (32 ≤ (generate_realistic_weather 0 0 12 0 ⟨0, 0, 0, 0, 0⟩ sampleLoc).temperature ∧
      (generate_realistic_weather 0 0 12 0 ⟨0, 0, 0, 0, 0⟩ sampleLoc).temperature ≤ 36) :=
  ⟨⟨by decide, by decide⟩,
    (generate_realistic_weather_tropical_bands 0 0 ⟨0, 0, 0, 0, 0⟩ sampleLoc
      (by decide) (by decide)).1⟩

/-- C9.  For every hour `h ≤ 23` and bacteria draws inside their declared
`random.randint` bounds, `_generate_realistic_pollution` reports level
`"moderate"` exactly in the two rush-hour windows (7–9 and 17–19), draws
the bacteria count from the 180-based band there (the 90-based band
otherwise), and sets `water_quality` to `"good"` exactly when the level is
`"low"` and to `"moderate"` otherwise. -/
theorem generate_realistic_pollution_spec (hour now : ℕ) (j : PollutionDraws)
    (li : LocInfo) (hh : hour ≤ 23)
    (hH1 : -40 ≤ j.bactHigh) (hH2 : j.bactHigh ≤ 80)
    (hL1 : -25 ≤ j.bactLow) (hL2 : j.bactLow ≤ 40) :
    ((generate_realistic_pollution hour now j li).pollution_level = "moderate"
        ↔ ((7 ≤ hour ∧ hour ≤ 9) ∨ (17 ≤ hour ∧ hour ≤ 19))) ∧
    (((7 ≤ hour ∧ hour ≤ 9) ∨ (17 ≤ hour ∧ hour ≤ 19)) →
      (generate_realistic_pollution hour now j li).monitoring_data.bacteria_count
          = 180 + j.bactHigh ∧
      140 ≤ (generate_realistic_pollution hour now j li).monitoring_data.bacteria_count ∧
      (generate_realistic_pollution hour now j li).monitoring_data.bacteria_count ≤ 260) ∧
    (¬((7 ≤ hour ∧ hour ≤ 9) ∨ (17 ≤ hour ∧ hour ≤ 19)) →
      (generate_realistic_pollution hour now j li).monitoring_data.bacteria_count
          = 90 + j.bactLow ∧
      65 ≤ (generate_realistic_pollution hour now j li).monitoring_data.bacteria_count ∧
      (generate_realistic_pollution hour now j li).monitoring_data.bacteria_count ≤ 130) ∧
    ((generate_realistic_pollution hour now j li).water_quality = "good"
        ↔ (generate_realistic_pollution hour now j li).pollution_level = "low") ∧
    ((generate_realistic_pollution hour now j li).water_quality = "good" ∨
      (generate_realistic_pollution hour now j li).water_quality = "moderate") := by
  by_cases hr : (7 ≤ hour ∧ hour ≤ 9) ∨ (17 ≤ hour ∧ hour ≤ 19)
  · refine ⟨by simp [generate_realistic_pollution, hr], ?_, ?_, ?_, ?_⟩
    · intro _
      refine ⟨by simp [generate_realistic_pollution, hr], ?_, ?_⟩
      · simp only [generate_realistic_pollution, hr]
        simp
        omega
      · simp only [generate_realistic_pollution, hr]
        simp
        omega
    · intro hc
      exact absurd hr hc
    · simp [generate_realistic_pollution, hr]
    · simp [generate_realistic_pollution, hr]
  · refine ⟨by simp [generate_realistic_pollution, hr], ?_, ?_, ?_, ?_⟩
    · intro hc
      exact absurd hc hr
    · intro _
      refine ⟨by simp [generate_realistic_pollution, hr], ?_, ?_⟩
      · simp only [generate_realistic_pollution, hr]
        simp
        omega
      · simp only [generate_realistic_pollution, hr]
        simp
        omega
    · simp [generate_realistic_pollution, hr]
    · simp [generate_realistic_pollution, hr]

/-- Witness for C9 at hour 8 (rush hour) with draws 0. -/
theorem generate_realistic_pollution_spec_witness :
    (8 ≤ 23 ∧ -40 ≤ (0 : ℤ) ∧ (0 : ℤ) ≤ 80 ∧ -25 ≤ (0 : ℤ) ∧ (0 : ℤ) ≤ 40) ∧
    ((generate_realistic_pollution 8 0 ⟨0, 0, 0, 0, 0, false⟩ sampleLoc).pollution_level
        = "moderate"
      ↔ ((7 ≤ 8 ∧ 8 ≤ 9) ∨ (17 ≤ 8 ∧ 8 ≤ 19))) :=
  ⟨⟨by decide, by decide, by decide, by decide, by decide⟩,
    (generate_realistic_pollution_spec 8 0 ⟨0, 0, 0, 0, 0, false⟩ sampleLoc
      (by decide) (by decide) (by decide) (by decide) (by decide)).1⟩

end Coastal

namespace Coastal

theorem unknownLat0_range (md5hex : String → String) (s : String) :
    -90 ≤ unknownLat0 md5hex s ∧ unknownLat0 md5hex s ≤ 89 := by
  unfold unknownLat0
  set n : ℕ := hexToNat ((md5hex (pyLower s)).take 8) % 180 with hn
  have h1 : n < 180 := by
    rw [hn]
    exact Nat.mod_lt _ (by norm_num)
  have h2 : (0 : ℚ) ≤ (n : ℚ) := Nat.cast_nonneg n
  have h3 : (n : ℚ) ≤ 179 := by exact_mod_cast (by omega : n ≤ 179)
  constructor <;> linarith

theorem unknownLon0_range (md5hex : String → String) (s : String) :
    -180 ≤ unknownLon0 md5hex s ∧ unknownLon0 md5hex s ≤ 179 := by
  unfold unknownLon0
  set n : ℕ := hexToNat (((md5hex (pyLower s)).drop 8).take 8) % 360 with hn
  have h1 : n < 360 := by
    rw [hn]
    exact Nat.mod_lt _ (by norm_num)
  have h2 : (0 : ℚ) ≤ (n : ℚ) := Nat.cast_nonneg n
  have h3 : (n : ℚ) ≤ 359 := by exact_mod_cast (by omega : n ≤ 359)
  constructor <;> linarith

theorem unknownLat_abs (md5hex : String → String) (s : String) :
    |unknownLat md5hex s| ≤ 60 := by
  obtain ⟨hl, hr⟩ := unknownLat0_range md5hex s
  simp only [unknownLat]
  split_ifs with hc
  · have h90 : |unknownLat0 md5hex s| ≤ 90 := abs_le.mpr ⟨by linarith, by linarith⟩
    rw [abs_mul]
    have h06 : |(0.6 : ℚ)| = 0.6 := by norm_num
    rw [h06]
    nlinarith
  · push_neg at hc
    exact hc

theorem unknownLon_abs (md5hex : String → String) (s : String) :
    |unknownLon md5hex s| ≤ 150 := by
  obtain ⟨hl, hr⟩ := unknownLon0_range md5hex s
  simp only [unknownLon]
  split_ifs with hc
  · have h180 : |unknownLon0 md5hex s| ≤ 180 := abs_le.mpr ⟨by linarith, by linarith⟩
    rw [abs_mul]
    have h08 : |(0.8 : ℚ)| = 0.8 := by norm_num
    rw [h08]
    nlinarith
  · push_neg at hc
    exact hc

theorem pyRound_abs_le (n : ℕ) (b : ℤ) (x : ℚ) (hb : 0 ≤ b)
    (h : |x| ≤ (b : ℚ)) : |pyRound n x| ≤ (b : ℚ) := by
  have hpow : (0 : ℚ) < 10 ^ n := by positivity
  obtain ⟨hl, hr⟩ := abs_le.mp h
  have h1 : ((-(b * 10 ^ n) : ℤ) : ℚ) ≤ x * 10 ^ n := by
    push_cast
    nlinarith
  have h2 : x * 10 ^ n ≤ ((b * 10 ^ n : ℤ) : ℚ) := by
    push_cast
    nlinarith
  obtain ⟨g1, g2⟩ := pyRound_bounds n (-(b * 10 ^ n)) (b * 10 ^ n) x h1 h2
  have e1 : ((-(b * 10 ^ n) : ℤ) : ℚ) / 10 ^ n = -(b : ℚ) := by
    push_cast
    field_simp
  have e2 : ((b * 10 ^ n : ℤ) : ℚ) / 10 ^ n = (b : ℚ) := by
    push_cast
    field_simp
  rw [e1] at g1
  rw [e2] at g2
  exact abs_le.mpr ⟨g1, g2⟩

theorem pyIntTrunc_abs_le (q : ℚ) (b : ℕ) (h : |q| ≤ (b : ℚ)) :
    -(b : ℤ) ≤ pyIntTrunc q ∧ pyIntTrunc q ≤ (b : ℤ) := by
  obtain ⟨hl, hr⟩ := abs_le.mp h
  unfold pyIntTrunc
  split_ifs with hq
  · have hnn : (0 : ℤ) ≤ ⌊q⌋ := Int.floor_nonneg.mpr hq
    have hub : ⌊q⌋ ≤ ⌊(b : ℚ)⌋ := Int.floor_mono hr
    have he : ⌊((b : ℕ) : ℚ)⌋ = (b : ℤ) := Int.floor_natCast b
    omega
  · push_neg at hq
    have h1 : ⌊-q⌋ ≤ ⌊(b : ℚ)⌋ := Int.floor_mono (by linarith)
    have he : ⌊((b : ℕ) : ℚ)⌋ = (b : ℤ) := Int.floor_natCast b
    have hnn : (0 : ℤ) ≤ ⌊-q⌋ := Int.floor_nonneg.mpr (by linarith)
    omega

/-- C10.  For every hash function and input string, the derived
pseudo-location satisfies `|lat| ≤ 60` and `|lon| ≤ 150` after clamping
(hence lies strictly inside the valid coordinate ranges), and the
timezone offset `int(lon / 15)` lies in `[-10, 10]`. -/
theorem generate_unknown_city_data_bounds (md5hex : String → String) (s : String) :
    |(generate_unknown_city_data md5hex s).lat| ≤ 60 ∧
    |(generate_unknown_city_data md5hex s).lon| ≤ 150 ∧
    |(generate_unknown_city_data md5hex s).lat| < 90 ∧
    |(generate_unknown_city_data md5hex s).lon| < 180 ∧
    -10 ≤ unknown_city_tz_offset md5hex s ∧
    unknown_city_tz_offset md5hex s ≤ 10 := by
  have hlat : |(generate_unknown_city_data md5hex s).lat| ≤ 60 := by
    have h := pyRound_abs_le 4 60 (unknownLat md5hex s) (by norm_num)
      (by exact_mod_cast unknownLat_abs md5hex s)
    show |pyRound 4 (unknownLat md5hex s)| ≤ 60
    exact_mod_cast h
  have hlon : |(generate_unknown_city_data md5hex s).lon| ≤ 150 := by
    have h := pyRound_abs_le 4 150 (unknownLon md5hex s) (by norm_num)
      (by exact_mod_cast unknownLon_abs md5hex s)
    show |pyRound 4 (unknownLon md5hex s)| ≤ 150
    exact_mod_cast h
  have htz : -(10 : ℤ) ≤ unknown_city_tz_offset md5hex s ∧
      unknown_city_tz_offset md5hex s ≤ 10 := by
    have habs : |unknownLon md5hex s / 15| ≤ ((10 : ℕ) : ℚ) := by
      rw [abs_div]
      have h15 : |(15 : ℚ)| = 15 := by norm_num
      rw [h15]
      have := unknownLon_abs md5hex s
      push_cast
      linarith
    have h := pyIntTrunc_abs_le (unknownLon md5hex s / 15) 10 habs
    exact ⟨by exact_mod_cast h.1, by exact_mod_cast h.2⟩
  exact ⟨hlat, hlon, by linarith, by linarith, htz.1, htz.2⟩

/-- C5.  For every input that matches no catalog key (exactly or
partially) and is not a parseable coordinate pair, `get_location_info`
takes the hash-derived pseudo-location path, and that derivation is a
pure function of the fixed hash applied to the lowercased input: any two
inputs with the same lowercasing (in particular, any two calls on the
same input) receive identical latitude, longitude and timezone — no
randomness is consumed. -/
theorem get_location_info_unknown_deterministic (md5hex : String → String)
    (s : String)
    (h1 : lookupExactCity (normalizeInput s) = none)
    (h2 : partialMatchCity s (normalizeInput s) = none)
    (h3 : strIn "," s = true → parseCoordPair s = none) :
    get_location_info md5hex s = generate_unknown_city_data md5hex s ∧
    (∀ t : String, pyLower t = pyLower s →
      (generate_unknown_city_data md5hex t).lat
          = (generate_unknown_city_data md5hex s).lat ∧
      (generate_unknown_city_data md5hex t).lon
          = (generate_unknown_city_data md5hex s).lon ∧
      (generate_unknown_city_data md5hex t).timezone
          = (generate_unknown_city_data md5hex s).timezone) := by
  constructor
  · unfold get_location_info
    rw [h1, h2]
    by_cases hc : strIn "," s = true
    · rw [if_pos hc, h3 hc]
    · rw [if_neg hc]
  · intro t ht
    have hlat : unknownLat md5hex t = unknownLat md5hex s := by
      unfold unknownLat unknownLat0
      rw [ht]
    have hlon : unknownLon md5hex t = unknownLon md5hex s := by
      unfold unknownLon unknownLon0
      rw [ht]
    have htz : unknown_city_tz_offset md5hex t = unknown_city_tz_offset md5hex s := by
      unfold unknown_city_tz_offset
      rw [hlon]
    exact ⟨by simp [generate_unknown_city_data, hlat],
      by simp [generate_unknown_city_data, hlon],
      by simp [generate_unknown_city_data, htz]⟩

/-- Witness for C5 at the unknown city name `"zzqx"`. -/
theorem get_location_info_unknown_deterministic_witness :
    lookupExactCity (normalizeInput "zzqx") = none ∧
    partialMatchCity "zzqx" (normalizeInput "zzqx") = none ∧
    get_location_info hexConst "zzqx" = generate_unknown_city_data hexConst "zzqx" :=
  ⟨rfl, rfl,
    (get_location_info_unknown_deterministic hexConst "zzqx" rfl rfl
      (fun h => absurd h (by decide))).1⟩

/-- C6.  For every non-catalog input containing a comma: if both parts
parse as floats, `get_location_info` returns the synthetic location with
`country = "Custom"`, `timezone = "UTC"` and exactly the parsed floats as
latitude and longitude; if the parse fails, the input falls through to
the pseudo-location derivation instead of raising. -/
theorem get_location_info_coordinate_branch (md5hex : String → String)
    (s : String)
    (h1 : lookupExactCity (normalizeInput s) = none)
    (h2 : partialMatchCity s (normalizeInput s) = none)
    (h3 : strIn "," s = true) :
    (∀ la lo : ℚ, parseCoordPair s = some (la, lo) →
      get_location_info md5hex s = customLocation la lo ∧
      (get_location_info md5hex s).country = "Custom" ∧
      (get_location_info md5hex s).timezone = "UTC" ∧
      (get_location_info md5hex s).lat = la ∧
      (get_location_info md5hex s).lon = lo) ∧
    (parseCoordPair s = none →
      get_location_info md5hex s = generate_unknown_city_data md5hex s) := by
  constructor
  · intro la lo hp
    have e : get_location_info md5hex s = customLocation la lo := by
      unfold get_location_info
      rw [h1, h2, if_pos h3, hp]
    exact ⟨e, by rw [e]; rfl, by rw [e]; rfl, by rw [e]; rfl, by rw [e]; rfl⟩
  · intro hp
    unfold get_location_info
    rw [h1, h2, if_pos h3, hp]

/-- Witness for C6 at the coordinate string `"19,-70"`. -/
theorem get_location_info_coordinate_branch_witness :
    lookupExactCity (normalizeInput "19,-70") = none ∧
    strIn "," "19,-70" = true ∧
    parseCoordPair "19,-70" = some (19, -70) ∧
    (get_location_info hexConst "19,-70").country = "Custom" ∧
    (get_location_info hexConst "19,-70").timezone = "UTC" ∧
    (get_location_info hexConst "19,-70").lat = 19 ∧
    (get_location_info hexConst "19,-70").lon = -70 :=
  ⟨rfl, rfl, rfl,
    ((get_location_info_coordinate_branch hexConst "19,-70" rfl rfl rfl).1
      19 (-70) rfl).2.1,
    ((get_location_info_coordinate_branch hexConst "19,-70" rfl rfl rfl).1
      19 (-70) rfl).2.2.1,
    ((get_location_info_coordinate_branch hexConst "19,-70" rfl rfl rfl).1
      19 (-70) rfl).2.2.2.1,
    ((get_location_info_coordinate_branch hexConst "19,-70" rfl rfl rfl).1
      19 (-70) rfl).2.2.2.2⟩

/-- C1.  The claim states the `weather` field of the dataset returned by
`get_comprehensive_data` is never null because provider failures become
fallback observations.  In the code, `RealWeatherService.
get_current_weather` converts every provider failure to `None` without
raising, and the orchestrator's weather branch substitutes the fallback
only on a raised exception (it has no `if weather_data:` guard, unlike
the tide and marine branches) — so a silent provider failure stores
`None` in the dataset's `weather` field (with provenance `"fallback"`
even though no fallback observation was generated). -/
theorem comprehensive_weather_none_on_provider_failure :
    RealWeatherService.get_current_weather (19.0760 : ℚ) (72.8777 : ℚ) 0 none
        = none ∧
    pyGet (get_comprehensive_data hexConst envProviderFail "mumbai") "weather"
        = some Value.vnone ∧
    strAt (dictAt (get_comprehensive_data hexConst envProviderFail "mumbai")
        "data_sources") "weather" = "fallback" :=
  ⟨rfl, rfl, rfl⟩

/-- C2.  The claim states the per-source provenance label is
`"fallback"` exactly when the stored observation came from the fallback
generator.  The label is computed as `real_label if data and 'source' in
data else 'fallback'`, and every fallback dict also carries a `'source'`
key — so whenever a fallback observation is substituted inside the
orchestrator (weather call raised; tide or marine provider unavailable),
`data_sources` reports the real-provider label while the observation
itself says `source = 'fallback'`. -/
theorem comprehensive_provenance_mislabels_fallback :
    strAt (dictAt barcelonaDataset "data_sources") "weather"
        = "openweathermap_real" ∧
    strAt (dictAt barcelonaDataset "weather") "source" = "fallback" ∧
    strAt (dictAt barcelonaDataset "data_sources") "tide" = "noaa_real" ∧
    strAt (dictAt barcelonaDataset "tide") "source" = "fallback" ∧
    strAt (dictAt barcelonaDataset "data_sources") "marine" = "stormglass_real" ∧
    strAt (dictAt barcelonaDataset "marine") "source" = "fallback" :=
  ⟨rfl, rfl, rfl, rfl, rfl, rfl⟩

end Coastal
